import Mathlib

/-!
Shallow embedding of the wxman terminal weather dashboard (Rust) and proofs
about its specification claims.

Conventions of the embedding:
* Rust `f64` values are embedded as `ℚ`: every constant appearing in the
  conversion formulas is a decimal literal, exact in `ℚ`.
* Rust `f64 as i32` casts (truncation toward zero, saturating at the i32
  bounds) are embedded by `f64AsI32`.
* `usize` is `ℕ` (Rust `saturating_sub` is `ℕ` subtraction), `i32` is `ℤ`
  with the explicit cast above where a float is narrowed.
* Fallible collaborators (zipcode lookup, IP geolocation, weather fetch,
  config save) are pure I/O at the boundary; they are passed to the command
  embeddings as explicit result oracles (`Except String _`), so a theorem
  quantifying over the oracle covers every possible outcome of the call.
* `chrono` timestamps: an hourly sample's `time` string is embedded by the
  outcome of `NaiveDateTime::parse_from_str(_, "%Y-%m-%dT%H:%M")` followed by
  `Local.from_local_datetime(..).single()`: `none` when that pipeline fails,
  `some t` with `t` the local time in minutes otherwise.  A daily sample's
  `date` keeps the raw string together with the outcome of
  `NaiveDate::parse_from_str(_, "%Y-%m-%d")` (`parsed_date`), and the chrono
  `%a %m/%d` formatter is an explicit function argument `fmt`.
-/

namespace Wxman

/-! ## config.rs: units and configuration -/

inductive TemperatureUnit
  | Fahrenheit
  | Celsius
deriving DecidableEq

inductive WindSpeedUnit
  | Mph
  | Kmh
  | Ms
  | Knots
deriving DecidableEq

inductive PrecipitationUnit
  | Inch
  | Cm
deriving DecidableEq

inductive PressureUnit
  | Hpa
  | InHg
deriving DecidableEq

/-- `TemperatureUnit::convert` (config.rs): from Celsius base. -/
def TemperatureUnit.convert : TemperatureUnit → ℚ → ℚ
  | .Celsius, celsius => celsius
  | .Fahrenheit, celsius => celsius * 9.0 / 5.0 + 32.0

/-- `WindSpeedUnit::convert` (config.rs): from km/h base. -/
def WindSpeedUnit.convert : WindSpeedUnit → ℚ → ℚ
  | .Kmh, kmh => kmh
  | .Mph, kmh => kmh * 0.621371
  | .Ms, kmh => kmh / 3.6
  | .Knots, kmh => kmh * 0.539957

/-- `PrecipitationUnit::convert` (config.rs): from mm base. -/
def PrecipitationUnit.convert : PrecipitationUnit → ℚ → ℚ
  | .Cm, mm => mm / 10.0
  | .Inch, mm => mm / 25.4

/-- `PressureUnit::convert` (config.rs): from hPa base. -/
def PressureUnit.convert : PressureUnit → ℚ → ℚ
  | .Hpa, hpa => hpa
  | .InHg, hpa => hpa * 0.02953

structure UnitsConfig where
  temperature : TemperatureUnit
  wind_speed : WindSpeedUnit
  precipitation : PrecipitationUnit
  pressure : PressureUnit
deriving DecidableEq

structure LocationConfig where
  zipcode : Option String
  latitude : Option ℚ
  longitude : Option ℚ
  city : Option String
deriving DecidableEq

structure Config where
  location : LocationConfig
  units : UnitsConfig
deriving DecidableEq

/-! ## models: Location and weather data -/

structure Location where
  latitude : ℚ
  longitude : ℚ
  city : String
  region : Option String
  country : String
  timezone : String
deriving DecidableEq

structure CurrentWeather where
  temperature : ℚ
  apparent_temperature : ℚ
  humidity : ℤ
  weather_code : ℤ
  wind_speed : ℚ
  wind_direction : ℤ
  wind_gusts : ℚ
  cloud_cover : ℤ
  pressure : ℚ
  precipitation : ℚ
  uv_index : ℚ
  is_day : Bool
deriving DecidableEq

/-- models/weather.rs `HourlyForecast`; `time` embeds the chrono
parse-and-localize outcome of the source's time string (minutes). -/
structure HourlyForecast where
  time : Option ℤ
  temperature : ℚ
  apparent_temperature : ℚ
  precipitation_probability : ℤ
  weather_code : ℤ
  wind_speed : ℚ
deriving DecidableEq

/-- models/weather.rs `DailyForecast`; `parsed_date` embeds the outcome of
`NaiveDate::parse_from_str(&date, "%Y-%m-%d")` (a day number when it parses). -/
structure DailyForecast where
  date : String
  parsed_date : Option ℤ
  weather_code : ℤ
  temp_max : ℚ
  temp_min : ℚ
  apparent_temp_max : ℚ
  apparent_temp_min : ℚ
  sunrise : String
  sunset : String
  precipitation_sum : ℚ
  precipitation_probability : ℤ
  wind_speed_max : ℚ
  uv_index_max : ℚ
deriving DecidableEq

structure WeatherData where
  current : CurrentWeather
  hourly : List HourlyForecast
  daily : List DailyForecast
deriving DecidableEq

/-! ## ui/icons.rs -/

inductive Color
  | Yellow
  | Blue
  | LightYellow
  | LightBlue
  | Gray
  | DarkGray
  | LightCyan
  | Cyan
  | White
  | Magenta
  | Green
  | LightGreen
  | Red
  | Rgb (r g b : ℕ)
deriving DecidableEq

inductive WeatherCondition
  | ClearDay
  | ClearNight
  | PartlyCloudyDay
  | PartlyCloudyNight
  | Overcast
  | Fog
  | Drizzle
  | Rain
  | HeavyRain
  | Snow
  | HeavySnow
  | Thunderstorm
  | Unknown
deriving DecidableEq

/-- `WeatherCondition::from_wmo_code` (ui/icons.rs), the `match code` arms in
source order: `80..=82` is the source's range arm, listed after the snow arms
exactly as in the code. -/
def WeatherCondition.from_wmo_code (code : ℤ) (is_day : Bool) : WeatherCondition :=
  if code = 0 then (if is_day then .ClearDay else .ClearNight)
  else if code = 1 ∨ code = 2 then (if is_day then .PartlyCloudyDay else .PartlyCloudyNight)
  else if code = 3 then .Overcast
  else if code = 45 ∨ code = 48 then .Fog
  else if code = 51 ∨ code = 53 ∨ code = 55 ∨ code = 56 ∨ code = 57 then .Drizzle
  else if code = 61 ∨ code = 63 ∨ code = 66 then .Rain
  else if code = 65 ∨ code = 67 then .HeavyRain
  else if code = 71 ∨ code = 73 ∨ code = 77 then .Snow
  else if code = 75 ∨ code = 85 ∨ code = 86 then .HeavySnow
  else if 80 ≤ code ∧ code ≤ 82 then .Rain
  else if code = 95 ∨ code = 96 ∨ code = 99 then .Thunderstorm
  else .Unknown

/-- Rust `f64 as i32`: truncation toward zero, saturating at the i32 bounds. -/
def f64AsI32 (q : ℚ) : ℤ :=
  max (-(2 ^ 31)) (min (2 ^ 31 - 1) (if 0 ≤ q then ⌊q⌋ else ⌈q⌉))

/-- `temperature_color_fahrenheit` (ui/icons.rs). -/
def temperature_color_fahrenheit (temp_f : ℚ) : Color :=
  let t := f64AsI32 temp_f
  if t ≤ 32 then .LightBlue
  else if 33 ≤ t ∧ t ≤ 50 then .Cyan
  else if 51 ≤ t ∧ t ≤ 65 then .Green
  else if 66 ≤ t ∧ t ≤ 75 then .LightGreen
  else if 76 ≤ t ∧ t ≤ 85 then .Yellow
  else if 86 ≤ t ∧ t ≤ 95 then .Rgb 255 165 0
  else .Red

/-- `temperature_color_celsius` (ui/icons.rs). -/
def temperature_color_celsius (temp_c : ℚ) : Color :=
  temperature_color_fahrenheit (temp_c * 9.0 / 5.0 + 32.0)

/-- `uv_info` (ui/icons.rs). -/
def uv_info (uv_index : ℚ) : String × Color :=
  let u := f64AsI32 uv_index
  if 0 ≤ u ∧ u ≤ 2 then ("Low", .Green)
  else if 3 ≤ u ∧ u ≤ 5 then ("Moderate", .Yellow)
  else if 6 ≤ u ∧ u ≤ 7 then ("High", .Rgb 255 165 0)
  else if 8 ≤ u ∧ u ≤ 10 then ("Very High", .Red)
  else ("Extreme", .Magenta)

/-! ## ui/hourly.rs: future-hour filter and scroll bound -/

/-- The filter closure shared by `render_hourly_forecast` and
`get_max_hourly_scroll` (ui/hourly.rs): keep a sample iff its time string
parses and localizes, and the resulting local time is `≥ now − 1 hour`.
`now` and the sample time are in minutes. -/
def futureKeep (now : ℤ) (h : HourlyForecast) : Bool :=
  match h.time with
  | some local_dt => decide (now - 60 ≤ local_dt)
  | none => false

/-- The `future_hours` list of `render_hourly_forecast` (ui/hourly.rs). -/
def future_hours (hourly : List HourlyForecast) (now : ℤ) : List HourlyForecast :=
  hourly.filter (futureKeep now)

/-- `get_max_hourly_scroll` (ui/hourly.rs).  Both subtractions are Rust
`usize::saturating_sub`, which is `ℕ` subtraction. -/
def get_max_hourly_scroll (hourly : List HourlyForecast) (visible_height : ℕ)
    (now : ℤ) : ℕ :=
  let future_count := (hourly.filter (futureKeep now)).length
  future_count - (visible_height - 2)

/-! ## app.rs: the dashboard state machine -/

inductive AppState
  | Loading
  | Ready
  | Error (msg : String)
deriving DecidableEq

inductive UnitMenuField
  | Temperature
  | WindSpeed
  | Precipitation
  | Pressure
deriving DecidableEq

structure App where
  config : Config
  state : AppState
  location : Option Location
  weather : Option WeatherData
  last_updated : Option ℤ
  hourly_scroll : ℕ
  show_help : Bool
  show_units_menu : Bool
  units_menu_selection : UnitMenuField
  units_changed : Bool
  show_location_input : Bool
  location_input : String
  location_error : Option String
  should_quit : Bool
deriving DecidableEq

/-- `App::get_location` (app.rs).  The two network collaborators
(`api::lookup_zipcode`, `api::get_location_from_ip`) are passed as result
oracles. -/
def get_location (config : Config)
    (lookup_zipcode : String → Except String Location)
    (get_location_from_ip : Except String Location) : Except String Location :=
  match config.location.zipcode with
  | some zipcode => lookup_zipcode zipcode
  | none =>
    match config.location.latitude, config.location.longitude with
    | some lat, some lon =>
        .ok { latitude := lat
              longitude := lon
              city := config.location.city.getD "Unknown"
              region := none
              country := ""
              timezone := "auto" }
    | _, _ => get_location_from_ip

/-- `App::load_weather` (app.rs).  `fetch_weather` is a result oracle taking
the resolved coordinates and the configured units; `now` is `Local::now()` in
minutes.  Returns the mutated app and the `Result<()>` value. -/
def load_weather (a : App)
    (lookup_zipcode : String → Except String Location)
    (get_location_from_ip : Except String Location)
    (fetch_weather : ℚ → ℚ → UnitsConfig → Except String WeatherData)
    (now : ℤ) : App × Except String Unit :=
  let a1 : App := { a with state := .Loading }
  match get_location a1.config lookup_zipcode get_location_from_ip with
  | .error e => (a1, .error e)
  | .ok location =>
    let a2 : App := { a1 with location := some location }
    match fetch_weather location.latitude location.longitude a2.config.units with
    | .error e => (a2, .error e)
    | .ok weather =>
        ({ a2 with
            weather := some weather
            last_updated := some now
            hourly_scroll := 0
            state := .Ready }, .ok ())

/-- `App::set_error` (app.rs). -/
def set_error (a : App) (message : String) : App :=
  { a with state := .Error message }

/-- The caller pattern of main.rs `run_app`: `if let Err(e) =
app.load_weather().await { app.set_error(e.to_string()); }`. -/
def load_weather_event (a : App)
    (lookup_zipcode : String → Except String Location)
    (get_location_from_ip : Except String Location)
    (fetch_weather : ℚ → ℚ → UnitsConfig → Except String WeatherData)
    (now : ℤ) : App :=
  match load_weather a lookup_zipcode get_location_from_ip fetch_weather now with
  | (a', .error e) => set_error a' e
  | (a', .ok _) => a'

/-- `App::toggle_units_menu` (app.rs).  The `Config::save` call is file I/O;
its outcome is the oracle `save_result`, and the source discards it with
`let _ = self.config.save();`. -/
def toggle_units_menu (a : App) (save_result : Except String Unit) : App :=
  let a1 : App := { a with show_units_menu := !a.show_units_menu }
  if a1.show_units_menu = false ∧ a1.units_changed then
    match save_result with
    | .ok _ => a1
    | .error _ => a1
  else a1

/-- `App::close_units_menu` (app.rs); returns the reload signal.  The save
outcome is again discarded by the source (`let _ = self.config.save();`). -/
def close_units_menu (a : App) (save_result : Except String Unit) : App × Bool :=
  if a.show_units_menu then
    let a1 : App := { a with show_units_menu := false }
    if a1.units_changed then
      let a2 : App :=
        match save_result with
        | .ok _ => a1
        | .error _ => a1
      ({ a2 with units_changed := false }, true)
    else (a1, false)
  else (a, false)

/-- `App::scroll_hourly_up` (app.rs). -/
def scroll_hourly_up (a : App) : App :=
  if 0 < a.hourly_scroll then { a with hourly_scroll := a.hourly_scroll - 1 }
  else a

/-- `App::scroll_hourly_down` (app.rs): the bound uses the fixed approximate
visible height 12, not the actual render area. -/
def scroll_hourly_down (a : App) (now : ℤ) : App :=
  match a.weather with
  | some weather =>
      let max_scroll := get_max_hourly_scroll weather.hourly 12 now
      if a.hourly_scroll < max_scroll then
        { a with hourly_scroll := a.hourly_scroll + 1 }
      else a
  | none => a

/-- `App::close_location_input` (app.rs). -/
def close_location_input (a : App) : App :=
  { a with show_location_input := false, location_input := "", location_error := none }

/-- Rust `str::trim`: drop leading and trailing whitespace characters. -/
def rustTrim (s : String) : String :=
  String.mk
    (((s.data.dropWhile Char.isWhitespace).reverse.dropWhile
        Char.isWhitespace).reverse)

/-- `App::submit_location` (app.rs).  `lookup_zipcode` and the `Config::save`
outcome are oracles; note that both save call sites use `?`, so a failing save
propagates as the command's `Err`. -/
def submit_location (a : App)
    (lookup_zipcode : String → Except String Location)
    (save_result : Except String Unit) : App × Except String Bool :=
  let input := (rustTrim a.location_input)
  if input.isEmpty then
    let a1 : App :=
      { a with config := { a.config with location :=
          { zipcode := none, latitude := none, longitude := none, city := none } } }
    match save_result with
    | .error e => (a1, .error e)
    | .ok _ => (close_location_input a1, .ok true)
  else
    match lookup_zipcode input with
    | .ok location =>
        let a1 : App :=
          { a with config := { a.config with location :=
              { zipcode := some input
                latitude := some location.latitude
                longitude := some location.longitude
                city := some location.city } } }
        match save_result with
        | .error e => (a1, .error e)
        | .ok _ => (close_location_input a1, .ok true)
    | .error e =>
        ({ a with location_error := some ("Not found: " ++ e) }, .ok false)

/-- The Enter-key handler of the location-input overlay in main.rs `run_app`:
on `Ok(true)` reload weather (errors there go to `set_error`), on `Ok(false)`
keep the overlay, on `Err(e)` set the global Error state and close the
overlay. -/
def location_input_enter (a : App)
    (lookup_zipcode : String → Except String Location)
    (save_result : Except String Unit)
    (get_location_from_ip : Except String Location)
    (fetch_weather : ℚ → ℚ → UnitsConfig → Except String WeatherData)
    (now : ℤ) : App :=
  match submit_location a lookup_zipcode save_result with
  | (a', .ok true) =>
      load_weather_event a' lookup_zipcode get_location_from_ip fetch_weather now
  | (a', .ok false) => a'
  | (a', .error e) => close_location_input (set_error a' e)

/-! ## ui/daily.rs and the per-row fragment of ui/hourly.rs -/

/-- The data computed by `render_day_column` (ui/daily.rs) for one column:
label text, glyph condition, the two printed temperatures and their colors,
precipitation color, UV description/color, wind value. -/
structure DayCell where
  label : String
  condition : WeatherCondition
  temp_min_display : ℤ
  temp_max_display : ℤ
  low_color : Color
  high_color : Color
  precip_color : Color
  uv_desc : String
  uv_color : Color
  wind_display : ℚ
deriving DecidableEq

/-- `render_day_column` (ui/daily.rs).  `fmt` is chrono's `%a %m/%d`
formatter applied to a successfully parsed date. -/
def render_day_column (fmt : ℤ → String) (units : UnitsConfig)
    (day : DailyForecast) (is_today : Bool) : DayCell :=
  let condition := WeatherCondition.from_wmo_code day.weather_code true
  let date_str :=
    match day.parsed_date with
    | some date => if is_today then "Today" else fmt date
    | none => day.date
  let temp_min := units.temperature.convert day.temp_min
  let temp_max := units.temperature.convert day.temp_max
  let wind_speed := units.wind_speed.convert day.wind_speed_max
  let high_color := temperature_color_celsius day.temp_max
  let low_color := temperature_color_celsius day.temp_min
  let precip_color :=
    if 0 ≤ day.precipitation_probability ∧ day.precipitation_probability ≤ 20 then
      Color.Green
    else if 21 ≤ day.precipitation_probability ∧ day.precipitation_probability ≤ 50 then
      Color.Yellow
    else if 51 ≤ day.precipitation_probability ∧ day.precipitation_probability ≤ 70 then
      Color.Rgb 255 165 0
    else Color.Red
  let uv := uv_info day.uv_index_max
  { label := date_str
    condition := condition
    temp_min_display := f64AsI32 temp_min
    temp_max_display := f64AsI32 temp_max
    low_color := low_color
    high_color := high_color
    precip_color := precip_color
    uv_desc := uv.1
    uv_color := uv.2
    wind_display := wind_speed }

/-- `render_daily_forecast` (ui/daily.rs): takes only the first 5 days and
renders one column per day, `is_today` true exactly for index 0. -/
def render_daily_forecast (fmt : ℤ → String) (units : UnitsConfig)
    (daily : List DailyForecast) : List DayCell :=
  let days := daily.take 5
  days.enum.map (fun p => render_day_column fmt units p.2 (p.1 == 0))

/-- The data computed for one row of `render_hourly_forecast` (ui/hourly.rs):
printed temperature and feels-like, the temperature color (from the raw
Celsius value), converted wind, precipitation color. -/
structure HourlyRow where
  condition : WeatherCondition
  temp_display : ℤ
  feels_display : ℤ
  temp_color : Color
  wind_display : ℚ
  precip_color : Color
deriving DecidableEq

/-- The per-row body of the render loop in `render_hourly_forecast`
(ui/hourly.rs, the temperature/wind/precipitation fragment). -/
def hourly_row (units : UnitsConfig) (hour : HourlyForecast) (is_day : Bool) :
    HourlyRow :=
  let condition := WeatherCondition.from_wmo_code hour.weather_code is_day
  let temp := units.temperature.convert hour.temperature
  let feels_like := units.temperature.convert hour.apparent_temperature
  let temp_color := temperature_color_celsius hour.temperature
  let wind_speed := units.wind_speed.convert hour.wind_speed
  let precip_color :=
    if 0 ≤ hour.precipitation_probability ∧ hour.precipitation_probability ≤ 20 then
      Color.Green
    else if 21 ≤ hour.precipitation_probability ∧ hour.precipitation_probability ≤ 50 then
      Color.Yellow
    else if 51 ≤ hour.precipitation_probability ∧ hour.precipitation_probability ≤ 70 then
      Color.Rgb 255 165 0
    else Color.Red
  { condition := condition
    temp_display := f64AsI32 temp
    feels_display := f64AsI32 feels_like
    temp_color := temp_color
    wind_display := wind_speed
    precip_color := precip_color }

/-! ## Spec-side reference definitions (for refinement claims) -/

/-- The claim's classification table, written from the spec's words
(§4.2 mapping table), to be compared with `WeatherCondition.from_wmo_code`. -/
def specClassify (code : ℤ) (is_day : Bool) : WeatherCondition :=
  if code = 0 then (if is_day then .ClearDay else .ClearNight)
  else if code = 1 ∨ code = 2 then (if is_day then .PartlyCloudyDay else .PartlyCloudyNight)
  else if code = 3 then .Overcast
  else if code = 45 ∨ code = 48 then .Fog
  else if code = 51 ∨ code = 53 ∨ code = 55 ∨ code = 56 ∨ code = 57 then .Drizzle
  else if code = 61 ∨ code = 63 ∨ code = 66 ∨ code = 80 ∨ code = 81 ∨ code = 82 then .Rain
  else if code = 65 ∨ code = 67 then .HeavyRain
  else if code = 71 ∨ code = 73 ∨ code = 77 then .Snow
  else if code = 75 ∨ code = 85 ∨ code = 86 then .HeavySnow
  else if code = 95 ∨ code = 96 ∨ code = 99 then .Thunderstorm
  else .Unknown

/-! ## Scroll command sequences (for the scroll-offset invariant) -/

inductive ScrollMove
  | up
  | down
deriving DecidableEq

/-- Apply a finite sequence of `scroll_hourly_up` / `scroll_hourly_down`
commands (the `k`/`j` handlers of main.rs). -/
def apply_scrolls (now : ℤ) : App → List ScrollMove → App
  | a, [] => a
  | a, .up :: ms => apply_scrolls now (scroll_hourly_up a) ms
  | a, .down :: ms => apply_scrolls now (scroll_hourly_down a now) ms

/-! ## Concrete sample data for witnesses and counterexamples -/

def sampleUnits : UnitsConfig :=
  { temperature := .Fahrenheit, wind_speed := .Mph
    precipitation := .Inch, pressure := .InHg }

def sampleLocation : Location :=
  { latitude := 40.7128, longitude := -74.006, city := "New York"
    region := none, country := "US", timezone := "auto" }

def sampleLocation2 : Location :=
  { latitude := 34.05, longitude := -118.24, city := "Los Angeles"
    region := none, country := "US", timezone := "auto" }

def sampleHour (t : Option ℤ) : HourlyForecast :=
  { time := t, temperature := 18, apparent_temperature := 16
    precipitation_probability := 10, weather_code := 0, wind_speed := 10 }

def sampleCurrent : CurrentWeather :=
  { temperature := 20.5, apparent_temperature := 19, humidity := 65
    weather_code := 3, wind_speed := 15, wind_direction := 180
    wind_gusts := 25, cloud_cover := 75, pressure := 1013.25
    precipitation := 0.5, uv_index := 5, is_day := true }

def sampleWeather : WeatherData :=
  { current := sampleCurrent
    hourly := (List.range 12).map (fun i => sampleHour (some (60 * (i : ℤ))))
    daily := [] }

def sampleDaily (d : String) (pd : Option ℤ) : DailyForecast :=
  { date := d, parsed_date := pd, weather_code := 3
    temp_max := 22, temp_min := 15, apparent_temp_max := 21
    apparent_temp_min := 14, sunrise := "07:00", sunset := "17:00"
    precipitation_sum := 0, precipitation_probability := 10
    wind_speed_max := 20, uv_index_max := 4 }

def sampleConfig : Config :=
  { location := { zipcode := some "10001", latitude := some 40
                  longitude := some (-74), city := some "NYC" }
    units := sampleUnits }

def sampleApp : App :=
  { config := sampleConfig, state := .Ready, location := some sampleLocation
    weather := some sampleWeather, last_updated := some 0, hourly_scroll := 0
    show_help := false, show_units_menu := false
    units_menu_selection := .Temperature, units_changed := false
    show_location_input := false, location_input := "", location_error := none
    should_quit := false }

/-- Location-input overlay open with an empty buffer. -/
def appLocInput : App :=
  { sampleApp with show_location_input := true, location_input := "" }

/-- Lookup oracle that always resolves to `sampleLocation2`. -/
def lookupNY : String → Except String Location := fun _ => .ok sampleLocation2

/-- Failing IP-geolocation oracle. -/
def ipFail : Except String Location := .error "ip unavailable"

/-- Failing weather-fetch oracle. -/
def fetchFail : ℚ → ℚ → UnitsConfig → Except String WeatherData :=
  fun _ _ _ => .error "fetch failed"

/-- A six-entry daily list whose date strings all fail to parse. -/
def dailyCexList : List DailyForecast :=
  List.replicate 6 (sampleDaily "bogus" none)

/-- App with no weather data loaded. -/
def appNoData : App :=
  { sampleApp with weather := none }

/-! ## Theorems -/

set_option maxHeartbeats 2000000

/-- C4: `WeatherCondition.from_wmo_code` is total over ℤ (it is a Lean
function, defined for every integer code and both day flags, so it never
fails) and agrees everywhere with the spec's mapping table `specClassify`:
ClearDay/ClearNight for 0 by the day flag, PartlyCloudy day/night for 1 and 2,
Overcast for 3, Fog for 45/48, Drizzle for 51/53/55/56/57, Rain for
61/63/66/80/81/82, HeavyRain for 65/67, Snow for 71/73/77, HeavySnow for
75/85/86, Thunderstorm for 95/96/99, and Unknown for every other code,
including negative codes and codes above 99. -/
theorem classify_matches_table (code : ℤ) (is_day : Bool) :
    WeatherCondition.from_wmo_code code is_day = specClassify code is_day := by
  unfold WeatherCondition.from_wmo_code specClassify
  split_ifs <;> first | rfl | omega

/-- C5: each unit kind's `convert` equals the stated reference formula
(Celsius, km/h and hPa are identities), and the stated fixed points hold:
0°C→32°F, 100°C→212°F, −40°C→−40°F, 3.6 km/h→1 m/s, 25.4 mm→1 inch, and
1013.25 hPa→29.92 inHg within ±0.01.  The embedded conversions are pure
functions of the base value, hence deterministic and side-effect-free. -/
theorem convert_formulas_and_fixed_points :
    (∀ c : ℚ, TemperatureUnit.Celsius.convert c = c) ∧
    (∀ c : ℚ, TemperatureUnit.Fahrenheit.convert c = c * 9 / 5 + 32) ∧
    (∀ k : ℚ, WindSpeedUnit.Kmh.convert k = k) ∧
    (∀ k : ℚ, WindSpeedUnit.Mph.convert k = k * 0.621371) ∧
    (∀ k : ℚ, WindSpeedUnit.Ms.convert k = k / 3.6) ∧
    (∀ k : ℚ, WindSpeedUnit.Knots.convert k = k * 0.539957) ∧
    (∀ m : ℚ, PrecipitationUnit.Inch.convert m = m / 25.4) ∧
    (∀ m : ℚ, PrecipitationUnit.Cm.convert m = m / 10) ∧
    (∀ p : ℚ, PressureUnit.Hpa.convert p = p) ∧
    (∀ p : ℚ, PressureUnit.InHg.convert p = p * 0.02953) ∧
    TemperatureUnit.Fahrenheit.convert 0 = 32 ∧
    TemperatureUnit.Fahrenheit.convert 100 = 212 ∧
    TemperatureUnit.Fahrenheit.convert (-40) = -40 ∧
    WindSpeedUnit.Ms.convert 3.6 = 1 ∧
    PrecipitationUnit.Inch.convert 25.4 = 1 ∧
    |PressureUnit.InHg.convert 1013.25 - 29.92| ≤ 0.01 := by
  refine ⟨fun c => ?_, fun c => ?_, fun k => ?_, fun k => ?_, fun k => ?_,
    fun k => ?_, fun m => ?_, fun m => ?_, fun p => ?_, fun p => ?_,
    ?_, ?_, ?_, ?_, ?_, ?_⟩ <;>
  norm_num [TemperatureUnit.convert, WindSpeedUnit.convert,
    PrecipitationUnit.convert, PressureUnit.convert, abs_le]

/-- C6: `get_location` resolves exactly one branch per call, in priority
order: a configured zipcode is resolved by text lookup even when coordinates
are also configured; otherwise configured coordinates build a `Location`
directly with `region = none`, `country = ""`, `timezone = "auto"` (and city
defaulting to "Unknown"); otherwise IP geolocation is used.  The three cases
are exhaustive and mutually exclusive, so exactly one branch executes. -/
theorem get_location_priority (config : Config)
    (lookup_zipcode : String → Except String Location)
    (get_location_from_ip : Except String Location) :
    (∀ z, config.location.zipcode = some z →
        get_location config lookup_zipcode get_location_from_ip =
          lookup_zipcode z) ∧
    (∀ la lo, config.location.zipcode = none →
        config.location.latitude = some la →
        config.location.longitude = some lo →
        get_location config lookup_zipcode get_location_from_ip =
          .ok { latitude := la, longitude := lo
                city := config.location.city.getD "Unknown"
                region := none, country := "", timezone := "auto" }) ∧
    (config.location.zipcode = none →
        (config.location.latitude = none ∨ config.location.longitude = none) →
        get_location config lookup_zipcode get_location_from_ip =
          get_location_from_ip) := by
  refine ⟨fun z hz => ?_, fun la lo hz hla hlo => ?_, fun hz hcoord => ?_⟩
  · simp [get_location, hz]
  · simp [get_location, hz, hla, hlo]
  · cases hla : config.location.latitude <;>
      cases hlo : config.location.longitude <;>
      simp_all [get_location]

/-- Witness for C6: with both a zipcode and coordinates configured, the text
lookup branch is the one taken. -/
theorem get_location_priority_witness :
    get_location sampleConfig (fun z => Except.error z) ipFail =
      Except.error "10001" :=
  (get_location_priority sampleConfig (fun z => Except.error z) ipFail).1
    "10001" rfl

/-- C9: the color of a low/high daily temperature and of an hourly
temperature is computed solely from the stored Celsius base value
(`temperature_color_celsius`), so any two unit selections produce identical
colors; the unit selection only changes the printed number. -/
theorem temperature_color_unit_independent (day : DailyForecast)
    (hour : HourlyForecast) (is_day is_today : Bool) (fmt : ℤ → String)
    (u1 u2 : UnitsConfig) :
    (render_day_column fmt u1 day is_today).low_color =
      (render_day_column fmt u2 day is_today).low_color ∧
    (render_day_column fmt u1 day is_today).high_color =
      (render_day_column fmt u2 day is_today).high_color ∧
    (hourly_row u1 hour is_day).temp_color =
      (hourly_row u2 hour is_day).temp_color ∧
    (render_day_column fmt u1 day is_today).low_color =
      temperature_color_celsius day.temp_min ∧
    (render_day_column fmt u1 day is_today).high_color =
      temperature_color_celsius day.temp_max ∧
    (hourly_row u1 hour is_day).temp_color =
      temperature_color_celsius hour.temperature :=
  ⟨rfl, rfl, rfl, rfl, rfl, rfl⟩

/-- Helper: scrolling up never touches the weather data. -/
theorem scroll_hourly_up_weather (a : App) :
    (scroll_hourly_up a).weather = a.weather := by
  unfold scroll_hourly_up
  split <;> rfl

/-- Helper: scrolling down never touches the weather data. -/
theorem scroll_hourly_down_weather (a : App) (now : ℤ) :
    (scroll_hourly_down a now).weather = a.weather := by
  rcases hw : a.weather with _ | w <;> simp only [scroll_hourly_down, hw]
  split <;> first | rfl | exact hw

/-- Helper: scrolling up never increases the offset. -/
theorem scroll_hourly_up_scroll_le (a : App) :
    (scroll_hourly_up a).hourly_scroll ≤ a.hourly_scroll := by
  unfold scroll_hourly_up
  split <;> simp

/-- Helper: scrolling down preserves the offset bound. -/
theorem scroll_hourly_down_scroll_le (a : App) (w : WeatherData) (now : ℤ)
    (hw : a.weather = some w)
    (h : a.hourly_scroll ≤ get_max_hourly_scroll w.hourly 12 now) :
    (scroll_hourly_down a now).hourly_scroll ≤
      get_max_hourly_scroll w.hourly 12 now := by
  simp only [scroll_hourly_down, hw]
  split
  · simpa using by omega
  · simpa using h

/-- Helper: the offset bound is an invariant of any scroll sequence. -/
theorem apply_scrolls_scroll_le (now : ℤ) (w : WeatherData)
    (ms : List ScrollMove) :
    ∀ a : App, a.weather = some w →
      a.hourly_scroll ≤ get_max_hourly_scroll w.hourly 12 now →
      (apply_scrolls now a ms).hourly_scroll ≤
        get_max_hourly_scroll w.hourly 12 now := by
  induction ms with
  | nil =>
      intro a _ h
      simpa [apply_scrolls] using h
  | cons m ms ih =>
      intro a hw h
      cases m with
      | up =>
          simp only [apply_scrolls]
          exact ih _ ((scroll_hourly_up_weather a).trans hw)
            (le_trans (scroll_hourly_up_scroll_le a) h)
      | down =>
          simp only [apply_scrolls]
          exact ih _ ((scroll_hourly_down_weather a now).trans hw)
            (scroll_hourly_down_scroll_le a w now hw h)

/-- C3: for a loaded weather snapshot and any finite sequence of scroll
commands starting from offset 0, the hourly scroll offset stays within
`[0, max_scroll]` (it is a natural number, hence ≥ 0, and never exceeds
`get_max_hourly_scroll hourly 12 now`); `scroll_hourly_up` at offset 0 is the
identity, and `scroll_hourly_down` at offset `max_scroll` is the identity. -/
theorem scroll_offset_invariant (w : WeatherData) (a : App) (now : ℤ)
    (ms : List ScrollMove) (hw : a.weather = some w)
    (h0 : a.hourly_scroll = 0) :
    (apply_scrolls now a ms).hourly_scroll ≤
        get_max_hourly_scroll w.hourly 12 now ∧
    (∀ b : App, b.hourly_scroll = 0 → scroll_hourly_up b = b) ∧
    (∀ b : App, b.weather = some w →
        b.hourly_scroll = get_max_hourly_scroll w.hourly 12 now →
        scroll_hourly_down b now = b) := by
  refine ⟨apply_scrolls_scroll_le now w ms a hw (by omega), ?_, ?_⟩
  · intro b hb
    simp [scroll_hourly_up, hb]
  · intro b hbw hb
    simp [scroll_hourly_down, hbw, hb]

/-- Witness for C3 at a concrete snapshot, app and scroll sequence. -/
theorem scroll_offset_invariant_witness :
    (apply_scrolls 0 sampleApp [ScrollMove.down, ScrollMove.down,
        ScrollMove.up]).hourly_scroll ≤
        get_max_hourly_scroll sampleWeather.hourly 12 0 ∧
    (∀ b : App, b.hourly_scroll = 0 → scroll_hourly_up b = b) ∧
    (∀ b : App, b.weather = some sampleWeather →
        b.hourly_scroll = get_max_hourly_scroll sampleWeather.hourly 12 0 →
        scroll_hourly_down b 0 = b) :=
  scroll_offset_invariant sampleWeather sampleApp 0
    [ScrollMove.down, ScrollMove.down, ScrollMove.up] rfl rfl

/-- C10: `scroll_hourly_down` is the identity when no weather data is loaded;
otherwise it increments the offset only while it is below
`get_max_hourly_scroll hourly 12 now` — a bound computed with the fixed
assumed height 12 (the definition takes no render-area height) — and is the
identity once the offset has reached that bound. -/
theorem scroll_down_no_data_and_fixed_bound (a : App) (now : ℤ) :
    (a.weather = none → scroll_hourly_down a now = a) ∧
    (∀ w, a.weather = some w →
        (scroll_hourly_down a now).hourly_scroll ≤
          max a.hourly_scroll (get_max_hourly_scroll w.hourly 12 now) ∧
        (a.hourly_scroll < get_max_hourly_scroll w.hourly 12 now →
          (scroll_hourly_down a now).hourly_scroll = a.hourly_scroll + 1) ∧
        (get_max_hourly_scroll w.hourly 12 now ≤ a.hourly_scroll →
          scroll_hourly_down a now = a)) := by
  constructor
  · intro hw
    simp [scroll_hourly_down, hw]
  · intro w hw
    refine ⟨?_, ?_, ?_⟩
    · simp only [scroll_hourly_down, hw]
      split
      · simpa using by omega
      · simp
    · intro h
      simp [scroll_hourly_down, hw, h]
    · intro h
      simp [scroll_hourly_down, hw, Nat.not_lt.mpr h]

/-- Witness for C10: with no weather loaded the command is the identity, and
at a concrete loaded app the increment case fires. -/
theorem scroll_down_no_data_and_fixed_bound_witness :
    scroll_hourly_down appNoData 0 = appNoData ∧
    (scroll_hourly_down sampleApp 0).hourly_scroll = sampleApp.hourly_scroll + 1 :=
  ⟨(scroll_down_no_data_and_fixed_bound appNoData 0).1 rfl,
   ((scroll_down_no_data_and_fixed_bound sampleApp 0).2 sampleWeather rfl).2.1
     (by decide)⟩

/-- C1 counterexample: with the location-input buffer empty and a failing
config save, `submit_location` returns the save failure to its caller
(`config.save()?` propagates), and the Enter-key handler of the event loop
then puts the dashboard into the global Error state — refuting "a failing
save never propagates as an error to the caller, and never puts the dashboard
into the global Error state". -/
theorem persistence_failure_swallowed_cex :
    (submit_location appLocInput lookupNY (.error "disk full")).2 =
        Except.error "disk full" ∧
    (location_input_enter appLocInput lookupNY (.error "disk full") ipFail
        fetchFail 0).state = AppState.Error "disk full" := by
  constructor <;> rfl

/-- C1 amended: a failing config save is swallowed by `toggle_units_menu` and
`close_units_menu` (their results do not depend on the save outcome, so the
in-memory unit change always takes effect and no error escapes), and even in
`submit_location` the in-memory config change takes effect before the save;
but `submit_location` propagates a failing save as an `Err` to its caller
(for both the empty-input and the successful-lookup paths), and the event
loop then sets the global Error state with the save failure's message. -/
theorem persistence_failure_handling (a : App) (s : Except String Unit)
    (lookup_zipcode : String → Except String Location) (e : String)
    (get_location_from_ip : Except String Location)
    (fetch_weather : ℚ → ℚ → UnitsConfig → Except String WeatherData)
    (now : ℤ) :
    toggle_units_menu a s = toggle_units_menu a (.ok ()) ∧
    close_units_menu a s = close_units_menu a (.ok ()) ∧
    ((rustTrim a.location_input).isEmpty = true →
        (submit_location a lookup_zipcode (.error e)).2 = .error e ∧
        (submit_location a lookup_zipcode (.error e)).1.config.location =
          { zipcode := none, latitude := none, longitude := none
            city := none } ∧
        location_input_enter a lookup_zipcode (.error e) get_location_from_ip
            fetch_weather now =
          close_location_input
            (set_error (submit_location a lookup_zipcode (.error e)).1 e)) ∧
    (∀ loc, (rustTrim a.location_input).isEmpty = false →
        lookup_zipcode (rustTrim a.location_input) = .ok loc →
        (submit_location a lookup_zipcode (.error e)).2 = .error e ∧
        (submit_location a lookup_zipcode (.error e)).1.config.location =
          { zipcode := some (rustTrim a.location_input)
            latitude := some loc.latitude
            longitude := some loc.longitude
            city := some loc.city }) := by
  refine ⟨?_, ?_, ?_, ?_⟩
  · unfold toggle_units_menu
    split <;> rfl
  · unfold close_units_menu
    split
    · split
      · rfl
      · rfl
    · rfl
  · intro hempty
    refine ⟨?_, ?_, ?_⟩
    · simp [submit_location, hempty]
    · simp [submit_location, hempty]
    · unfold location_input_enter
      simp [submit_location, hempty]
  · intro loc hne hlook
    constructor
    · simp [submit_location, hne, hlook]
    · simp [submit_location, hne, hlook]

/-- Witness for C1 (amended) at a concrete app and failing save. -/
theorem persistence_failure_handling_witness :
    toggle_units_menu sampleApp (.error "nope") =
        toggle_units_menu sampleApp (.ok ()) ∧
    (submit_location appLocInput lookupNY (.error "nope")).2 =
        Except.error "nope" := by
  have h := persistence_failure_handling sampleApp (.error "nope") lookupNY
    "nope" ipFail fetchFail 0
  have h2 := persistence_failure_handling appLocInput (.error "nope") lookupNY
    "nope" ipFail fetchFail 0
  exact ⟨h.1, (h2.2.2.1 rfl).1⟩

/-- C2 counterexample: starting from an app that already stores a location,
when the zipcode lookup resolves to a different location and the weather
fetch then fails, the stored location has been replaced — refuting "the
previously stored location ... [is] left unchanged" on failure. -/
theorem load_weather_atomic_cex :
    (load_weather_event sampleApp lookupNY ipFail fetchFail 0).location ≠
        sampleApp.location ∧
    (load_weather_event sampleApp lookupNY ipFail fetchFail 0).state =
        AppState.Error "fetch failed" ∧
    (load_weather_event sampleApp lookupNY ipFail fetchFail 0).weather =
        sampleApp.weather ∧
    (load_weather_event sampleApp lookupNY ipFail fetchFail 0).last_updated =
        sampleApp.last_updated ∧
    (load_weather_event sampleApp lookupNY ipFail fetchFail 0).hourly_scroll =
        sampleApp.hourly_scroll := by
  refine ⟨?_, rfl, rfl, rfl, rfl⟩
  intro h
  have hc : (load_weather_event sampleApp lookupNY ipFail fetchFail 0).location =
      some sampleLocation2 := rfl
  rw [hc] at h
  have hcity := congrArg Location.city (Option.some.inj h)
  simp [sampleLocation, sampleLocation2] at hcity

/-- C2 amended: on a location-resolution failure `load_weather` (as run by
the event loop) only sets mode `Error(message)` — location, weather snapshot,
last-refresh timestamp and scroll offset are all unchanged; on a weather-fetch
failure it sets mode `Error(message)` and leaves weather, last-refresh and
scroll unchanged, but the stored location has already been replaced by the
newly resolved location. -/
theorem load_weather_failure_behavior (a : App)
    (lookup_zipcode : String → Except String Location)
    (get_location_from_ip : Except String Location)
    (fetch_weather : ℚ → ℚ → UnitsConfig → Except String WeatherData)
    (now : ℤ) :
    (∀ e, get_location a.config lookup_zipcode get_location_from_ip =
            .error e →
        load_weather_event a lookup_zipcode get_location_from_ip fetch_weather
            now = { a with state := .Error e }) ∧
    (∀ loc e, get_location a.config lookup_zipcode get_location_from_ip =
            .ok loc →
        fetch_weather loc.latitude loc.longitude a.config.units = .error e →
        load_weather_event a lookup_zipcode get_location_from_ip fetch_weather
            now = { a with state := .Error e, location := some loc }) := by
  constructor
  · intro e he
    unfold load_weather_event load_weather
    simp only [he]
    rfl
  · intro loc e hloc hfetch
    unfold load_weather_event load_weather
    simp only [hloc, hfetch]
    rfl

/-- Witness for C2 (amended), fetch-failure case at concrete inputs. -/
theorem load_weather_failure_behavior_witness :
    load_weather_event sampleApp lookupNY ipFail fetchFail 0 =
      { sampleApp with
          state := .Error "fetch failed", location := some sampleLocation2 } :=
  (load_weather_failure_behavior sampleApp lookupNY ipFail fetchFail 0).2
    sampleLocation2 "fetch failed" rfl rfl

/-- Helper: the future-hour filter keeps a sample iff it carries a parsed
timestamp at least one hour before now. -/
theorem futureKeep_iff (now : ℤ) (h : HourlyForecast) :
    futureKeep now h = true ↔ ∃ t, h.time = some t ∧ now - 60 ≤ t := by
  cases ht : h.time <;> simp [futureKeep, ht]

/-- C7 counterexample: at window height 1 with one retained sample, the code's
maximum scroll offset is 1 (`saturating_sub` clamps the inner subtraction at
0), while the claimed formula `max(0, filtered_count − (window_height − 2))`
gives 2 — refuting the formula for every window height. -/
theorem max_scroll_formula_cex :
    get_max_hourly_scroll [sampleHour (some 0)] 1 0 = 1 ∧
    ¬ ((get_max_hourly_scroll [sampleHour (some 0)] 1 0 : ℤ) =
        max 0 (((future_hours [sampleHour (some 0)] 0).length : ℤ) -
          ((1 : ℤ) - 2))) := by
  constructor
  · rfl
  · intro h
    have h1 : get_max_hourly_scroll [sampleHour (some 0)] 1 0 = 1 := rfl
    have h2 : (future_hours [sampleHour (some 0)] 0).length = 1 := rfl
    rw [h1, h2] at h
    norm_num at h

/-- C7 amended: the future-hour filter retains exactly the samples whose
(parsing and localizing) timestamp is `≥ now − 1 hour`, and the maximum
hourly scroll offset equals
`max(0, filtered_count − max(0, window_height − 2))` — the inner subtraction
is also clamped at 0 (`usize::saturating_sub`), which matters only for window
heights below the 2 header rows. -/
theorem future_filter_and_max_scroll (hourly : List HourlyForecast) (now : ℤ)
    (window_height : ℕ) :
    (∀ h, h ∈ future_hours hourly now ↔
        h ∈ hourly ∧ ∃ t, h.time = some t ∧ now - 60 ≤ t) ∧
    ((get_max_hourly_scroll hourly window_height now : ℤ) =
        max 0 (((future_hours hourly now).length : ℤ) -
          max 0 ((window_height : ℤ) - 2))) := by
  constructor
  · intro h
    rw [future_hours, List.mem_filter, futureKeep_iff]
  · show ((((hourly.filter (futureKeep now)).length : ℕ) -
        (window_height - 2) : ℕ) : ℤ) = _
    rw [future_hours]
    omega

/-- Witness for C7 (amended) at a concrete sample list and window height. -/
theorem future_filter_and_max_scroll_witness :
    (sampleHour (some 0) ∈ future_hours [sampleHour (some 0)] 0 ↔
        sampleHour (some 0) ∈ [sampleHour (some 0)] ∧
          ∃ t, (sampleHour (some 0)).time = some t ∧ (0 : ℤ) - 60 ≤ t) ∧
    ((get_max_hourly_scroll [sampleHour (some 0)] 12 0 : ℤ) =
        max 0 (((future_hours [sampleHour (some 0)] 0).length : ℤ) -
          max 0 ((12 : ℤ) - 2))) :=
  ⟨(future_filter_and_max_scroll [sampleHour (some 0)] 0 12).1 _,
   (future_filter_and_max_scroll [sampleHour (some 0)] 0 12).2⟩

/-- C8 counterexample: a six-entry daily list whose first date string fails
to parse renders its first column label as the raw string "bogus", not
"Today" — refuting "the first column's date label is the literal string
Today ... including when the date string fails to parse". -/
theorem daily_today_label_cex :
    5 < dailyCexList.length ∧
    ((render_daily_forecast (fun _ => "") sampleUnits
        dailyCexList).head?.map DayCell.label) = some "bogus" ∧
    "bogus" ≠ "Today" := by
  refine ⟨by decide, rfl, by decide⟩

/-- C8 amended: for a daily list with more than 5 entries the renderer's
output uses exactly the first 5 samples (5 columns, identical to rendering
the truncated list); the first column is rendered with `is_today = true`, and
its label is the literal "Today" whenever the first sample's date string
parses — when parsing fails, the raw date string is shown instead. -/
theorem daily_take5_and_today_label (fmt : ℤ → String) (units : UnitsConfig)
    (daily : List DailyForecast) (h5 : 5 < daily.length) :
    (render_daily_forecast fmt units daily).length = 5 ∧
    render_daily_forecast fmt units daily =
      render_daily_forecast fmt units (daily.take 5) ∧
    (∀ d rest, daily = d :: rest →
        (render_daily_forecast fmt units daily).head? =
          some (render_day_column fmt units d true) ∧
        (∀ pd, d.parsed_date = some pd →
            (render_day_column fmt units d true).label = "Today") ∧
        (d.parsed_date = none →
            (render_day_column fmt units d true).label = d.date)) := by
  refine ⟨?_, ?_, ?_⟩
  · simp [render_daily_forecast]
    omega
  · simp [render_daily_forecast, List.take_take]
  · intro d rest hd
    refine ⟨?_, ?_, ?_⟩
    · subst hd
      simp [render_daily_forecast, List.take_succ_cons, List.enum_cons]
    · intro pd hpd
      simp [render_day_column, hpd]
    · intro hpd
      simp [render_day_column, hpd]

/-- Witness for C8 (amended) at a concrete six-entry list whose first date
parses. -/
theorem daily_take5_and_today_label_witness :
    5 < (sampleDaily "2024-01-01" (some 0) :: dailyCexList).length ∧
    (render_daily_forecast (fun _ => "") sampleUnits
        (sampleDaily "2024-01-01" (some 0) :: dailyCexList)).length = 5 ∧
    (render_day_column (fun _ => "") sampleUnits
        (sampleDaily "2024-01-01" (some 0)) true).label = "Today" := by
  have h := daily_take5_and_today_label (fun _ => "") sampleUnits
    (sampleDaily "2024-01-01" (some 0) :: dailyCexList) (by decide)
  exact ⟨by decide, h.1,
    ((h.2.2 (sampleDaily "2024-01-01" (some 0)) dailyCexList rfl).2.1 0 rfl)⟩

end Wxman
